import Mathlib

/-!
Verification of the gibster synchronization engine against its
specification.  The definitions below are a shallow embedding of the
Python source under src/backend: the content-hashing helpers
(scraper.create_booking_hash, models.Booking.create_hash), the price
parser (scraper.parse_price), the reconciliation step of
scraper.scrape_user_bookings, the job-manager operations
(main.sync_bookings, worker.check_and_mark_stale_jobs,
worker.cleanup_old_sync_jobs), the best-effort job logger
(sync_logger.SyncJobLogger._create_log_entry) and the harvest loop of
scraper.GibneyScraper.scrape_rentals.

Modelling conventions:
* Python datetime values are modelled by PyDateTime, a wrapper around
  their str() rendering; the code only ever compares datetimes and
  feeds str(datetime) into the hash, so this rendering is all the
  hashing layer observes.
* Wall-clock timestamps used for arithmetic (heartbeats, cutoffs) are
  modelled as Int seconds since an arbitrary epoch.
* Python float prices are modelled as Rat; parse_price only produces
  finite decimal values and the hash only compares them for equality.
* SHA-256 composed with json.dumps(sort_keys := true) is modelled as an
  arbitrary function H from the record of relevant fields to a digest
  string: json.dumps with sorted keys is a canonical injection of the
  field record, so every theorem proved for all H holds for the concrete
  digest used by the code.
-/

/-- Model of a Python datetime: the code hashes str(datetime), so the
datetime is represented by that rendering. -/
structure PyDateTime where
  render : String
deriving DecidableEq, Repr

/-- A scraped rental record as built by GibneyScraper.scrape_rentals:
the dict with keys id, name, start_time, end_time, studio, location,
status, price, record_url.  parse_price always yields a float, so price
is total here. -/
structure BookingData where
  id : String
  name : String
  start_time : PyDateTime
  end_time : PyDateTime
  studio : String
  location : String
  status : String
  price : Rat
  record_url : String
deriving DecidableEq, Repr

/-- A persisted bookings row (models.Booking): primary key id (the
external Gibney id), owner user_id, the mutable content fields, the
nullable price and record_url columns, and last_seen. -/
structure Booking where
  id : String
  user_id : String
  name : String
  start_time : PyDateTime
  end_time : PyDateTime
  studio : String
  location : String
  status : String
  price : Option Rat
  record_url : Option String
  last_seen : Int
deriving DecidableEq, Repr

/-- The record serialized by both hash functions: the fields named in
relevant_fields of create_booking_hash and Booking.create_hash, with
start_time and end_time already passed through str(). -/
structure RelevantFields where
  name : String
  start_time : String
  end_time : String
  studio : String
  location : String
  status : String
  price : Rat
deriving DecidableEq, Repr

/-- Python expression float(price or 0) used by Booking.create_hash on
the nullable price column: None becomes 0, a zero numeric is falsy and
also becomes 0, any other numeric is kept. -/
def pyFloatOrZero (p : Option Rat) : Rat :=
  match p with
  | none => 0
  | some q => if q = 0 then 0 else q

/-- The relevant_fields dict built by scraper.create_booking_hash from
a scraped record dict (price is present, so get with default 0 returns
it; float of a float is the identity). -/
def relevantOfData (d : BookingData) : RelevantFields :=
  { name := d.name
  , start_time := d.start_time.render
  , end_time := d.end_time.render
  , studio := d.studio
  , location := d.location
  , status := d.status
  , price := d.price }

/-- The relevant_fields dict built by models.Booking.create_hash from a
stored row (price goes through float(getattr(self, "price", 0) or 0)). -/
def relevantOfBooking (b : Booking) : RelevantFields :=
  { name := b.name
  , start_time := b.start_time.render
  , end_time := b.end_time.render
  , studio := b.studio
  , location := b.location
  , status := b.status
  , price := pyFloatOrZero b.price }

/-- scraper.create_booking_hash: H models sha256 of the deterministic
sort_keys JSON serialization of the relevant fields. -/
def create_booking_hash (H : RelevantFields → String) (d : BookingData) : String :=
  H (relevantOfData d)

namespace Booking

/-- models.Booking.create_hash over a stored row, with the same digest
function H. -/
def create_hash (H : RelevantFields → String) (b : Booking) : String :=
  H (relevantOfBooking b)

end Booking

/-- Python str.lower(), modelled as a character-wise lowering of the
character list (identical to String.toLower, but stated by structural
recursion so concrete instances evaluate). -/
def pyLower (s : String) : String :=
  ⟨s.data.map Char.toLower⟩

/-- scraper.parse_price.  floatOf models the Python float(str)
constructor, returning none where float() raises ValueError.  The
branches follow the source: empty or case-insensitive "free" is 0.0; a
string starting with the dollar sign has it stripped and commas removed
before float(), falling back to 0.0 on failure; anything else goes to
float() directly, falling back to 0.0 on failure. -/
def parse_price (floatOf : String → Option Rat) (s : String) : Rat :=
  if s = "" ∨ pyLower s = "free" then 0
  else if s.startsWith "$" then
    match floatOf ((s.drop 1).replace "," "") with
    | some q => q
    | none => 0
  else
    match floatOf s with
    | some q => q
    | none => 0

/-- One entry of the bookings_to_update batch passed to
bulk_update_mappings in scrape_user_bookings: either the full update
dict (all scraped fields plus last_seen) produced when the hashes
differ, or the last_seen-only dict produced for an unchanged row.  Each
mapping is keyed by the primary-key id. -/
inductive UpdateOp where
  | full (id : String) (d : BookingData) (t : Int)
  | touchOnly (id : String) (t : Int)
deriving DecidableEq, Repr

/-- The primary key an update mapping addresses. -/
def UpdateOp.key : UpdateOp → String
  | .full i _ _ => i
  | .touchOnly i _ => i

/-- A freshly inserted row: insert_data is a copy of the scraped dict
plus user_id and last_seen (scrape_user_bookings, bulk insert path). -/
def mkBooking (uid : String) (t : Int) (d : BookingData) : Booking :=
  { id := d.id
  , user_id := uid
  , name := d.name
  , start_time := d.start_time
  , end_time := d.end_time
  , studio := d.studio
  , location := d.location
  , status := d.status
  , price := some d.price
  , record_url := some d.record_url
  , last_seen := t }

/-- Applying the full update dict to a row: every scraped field except
id is written, plus last_seen (the update_data built when changed). -/
def overwriteBooking (b : Booking) (d : BookingData) (t : Int) : Booking :=
  { b with
    name := d.name
  , start_time := d.start_time
  , end_time := d.end_time
  , studio := d.studio
  , location := d.location
  , status := d.status
  , price := some d.price
  , record_url := some d.record_url
  , last_seen := t }

/-- Applying the last_seen-only update dict to a row. -/
def touchBooking (b : Booking) (t : Int) : Booking :=
  { b with last_seen := t }

/-- bulk_update_mappings applies a mapping to the row whose primary key
matches; rows with other keys are untouched. -/
def applyOp (b : Booking) : UpdateOp → Booking
  | .full i d t => if b.id = i then overwriteBooking b d t else b
  | .touchOnly i t => if b.id = i then touchBooking b t else b

/-- Effect of the whole bookings_to_update batch on one row. -/
def applyOps (ops : List UpdateOp) (b : Booking) : Booking :=
  ops.foldl applyOp b

/-- The existing_bookings dict lookup: the dict comprehension keyed by
b.id keeps the last row with a given id, hence the reversed find. -/
def findExisting (rows : List Booking) (i : String) : Option Booking :=
  rows.reverse.find? (fun b => b.id == i)

/-- Classification of one scraped record by the reconcile loop:
none when no local row with that id exists (a create), some changed
when one exists, where changed is the hash comparison
existing.create_hash() != create_booking_hash(booking_data). -/
def classifyRecord (H : RelevantFields → String) (rows : List Booking)
    (d : BookingData) : Option Bool :=
  match findExisting rows d.id with
  | none => none
  | some b => some (Booking.create_hash H b != create_booking_hash H d)

/-- The update mapping one scraped record contributes to
bookings_to_update: the full dict when the hashes differ, the
last_seen-only dict when they agree, nothing when the record is new
(it goes to bookings_to_insert instead). -/
def opOf (H : RelevantFields → String) (now : Int) (rows : List Booking)
    (d : BookingData) : Option UpdateOp :=
  match classifyRecord H rows d with
  | none => none
  | some true => some (UpdateOp.full d.id d now)
  | some false => some (UpdateOp.touchOnly d.id now)

/-- Result of the database-reconciliation step: the counters logged by
scrape_user_bookings and the resulting set of rows for this owner. -/
structure ReconcileResult where
  created : Nat
  updated : Nat
  unchanged : Nat
  deleted : Nat
  store : List Booking
deriving Repr

/-- The database-reconciliation step of scraper.scrape_user_bookings,
applied to the rows of one owner (the code loads exactly the rows with
this user_id):
1. rows whose id is not among the scraped ids are deleted;
2. each scraped record is classified against the preloaded rows via
   classifyRecord, producing the bookings_to_insert batch and the
   bookings_to_update batch (full dict when changed, last_seen-only
   dict when unchanged);
3. the insert batch is committed, then every update mapping is applied
   by primary key.
now stands for the datetime.now(timezone.utc) timestamps written into
last_seen. -/
def reconcileBookings (H : RelevantFields → String) (now : Int)
    (uid : String) (rows : List Booking) (data : List BookingData) :
    ReconcileResult :=
  let keep : Booking → Bool := fun b => data.any (fun d => d.id == b.id)
  let kept := rows.filter keep
  let inserts :=
    (data.filter (fun d => (classifyRecord H rows d).isNone)).map
      (mkBooking uid now)
  let ops := data.filterMap (opOf H now rows)
  { created := data.countP (fun d => (classifyRecord H rows d).isNone)
  , updated := data.countP (fun d => classifyRecord H rows d == some true)
  , unchanged := data.countP (fun d => classifyRecord H rows d == some false)
  , deleted := (rows.filter (fun b => !keep b)).length
  , store := (kept ++ inserts).map (applyOps ops) }

/-- A sync_jobs row (models.SyncJob).  Job ids are UUIDs in the code,
modelled as Nat; timestamps are Int seconds. -/
structure SyncJob where
  id : Nat
  user_id : String
  status : String
  progress : Option String
  bookings_synced : Nat
  error_message : Option String
  started_at : Int
  completed_at : Option Int
  last_updated_at : Int
  triggered_manually : Bool
deriving DecidableEq, Repr

/-- The module-level _stale_check_interval constant of worker.py. -/
def staleCheckInterval : Int := 60

/-- Predicate of the stale-jobs query in check_and_mark_stale_jobs:
status running and heartbeat older than now minus timeout_minutes. -/
def isStaleJob (now : Int) (timeoutMinutes : Int) (j : SyncJob) : Bool :=
  j.status == "running" && decide (j.last_updated_at < now - timeoutMinutes * 60)

/-- The field writes performed on one stale job by
check_and_mark_stale_jobs. -/
def markJobFailed (now : Int) (timeoutMinutes : Int) (j : SyncJob) : SyncJob :=
  { j with
    status := "failed"
  , error_message :=
      some ("Sync timed out after " ++ toString timeoutMinutes ++ " minutes")
  , progress := some "Sync failed due to timeout"
  , completed_at := some now
  , last_updated_at := now }

/-- Output of one call to check_and_mark_stale_jobs: the returned count,
the jobs table afterwards, and the module-level _last_stale_check_time
afterwards. -/
structure SweepResult where
  count : Nat
  jobs : List SyncJob
  lastCheck : Option Int
deriving Repr

/-- worker.check_and_mark_stale_jobs.  lastCheck models the global
_last_stale_check_time; if it is set and less than 60 seconds old, the
call returns 0 immediately with no query and no mutation.  Otherwise
the timestamp is taken and every running job whose last_updated_at is
older than the cutoff is marked failed with a timeout message. -/
def check_and_mark_stale_jobs (lastCheck : Option Int) (now : Int)
    (jobs : List SyncJob) (timeoutMinutes : Int := 10) : SweepResult :=
  match lastCheck with
  | some t =>
    if now - t < staleCheckInterval then
      { count := 0, jobs := jobs, lastCheck := some t }
    else
      { count := jobs.countP (isStaleJob now timeoutMinutes)
      , jobs := jobs.map (fun j =>
          if isStaleJob now timeoutMinutes j then
            markJobFailed now timeoutMinutes j
          else j)
      , lastCheck := some now }
  | none =>
    { count := jobs.countP (isStaleJob now timeoutMinutes)
    , jobs := jobs.map (fun j =>
        if isStaleJob now timeoutMinutes j then
          markJobFailed now timeoutMinutes j
        else j)
    , lastCheck := some now }

/-- Predicate of the cleanup query in cleanup_old_sync_jobs: terminal
status and started_at older than now minus days_to_keep days. -/
def isOldJob (now : Int) (daysToKeep : Int) (j : SyncJob) : Bool :=
  (j.status == "completed" || j.status == "failed")
    && decide (j.started_at < now - daysToKeep * 86400)

/-- Output of cleanup_old_sync_jobs: the returned count and the jobs
table afterwards. -/
structure CleanupResult where
  count : Nat
  jobs : List SyncJob
deriving Repr

/-- worker.cleanup_old_sync_jobs: delete completed or failed jobs whose
started_at is older than the cutoff, return how many were deleted. -/
def cleanup_old_sync_jobs (now : Int) (jobs : List SyncJob)
    (daysToKeep : Int := 30) : CleanupResult :=
  { count := jobs.countP (isOldJob now daysToKeep)
  , jobs := jobs.filter (fun j => !isOldJob now daysToKeep j) }

/-- Predicate of the duplicate-prevention query in main.sync_bookings:
a job of this owner whose status is pending or running. -/
def isActiveFor (uid : String) (j : SyncJob) : Bool :=
  j.user_id == uid && (j.status == "pending" || j.status == "running")

/-- Response and post-state of the sync_bookings endpoint. -/
structure SyncStartOut where
  job_id : Nat
  message : String
  status : String
  jobs : List SyncJob
  lastCheck : Option Int
deriving Repr

/-- The new pending SyncJob row inserted by sync_bookings; started_at
and last_updated_at take their column defaults (utcnow). -/
def newPendingJob (uid : String) (newId : Nat) (now : Int) : SyncJob :=
  { id := newId
  , user_id := uid
  , status := "pending"
  , progress := some "Initializing sync..."
  , bookings_synced := 0
  , error_message := none
  , started_at := now
  , completed_at := none
  , last_updated_at := now
  , triggered_manually := true }

/-- main.sync_bookings (the StartSync endpoint).  credsSet models the
presence of stored Gibney credentials; failing that check raises a 400
before touching the job table.  Otherwise the endpoint first runs
check_and_mark_stale_jobs with its default timeout, then returns the
handle of the first pending or running job of this owner if one exists
(the response echoes that status, defaulting an empty status string to
"pending"), and only otherwise inserts a fresh pending job with id
newId and hands it to the background worker. -/
def sync_bookings (credsSet : Bool) (lastCheck : Option Int) (now : Int)
    (jobs : List SyncJob) (uid : String) (newId : Nat) :
    Except String SyncStartOut :=
  if !credsSet then
    .error "Gibney credentials not set. Please update your credentials first."
  else
    let sw := check_and_mark_stale_jobs lastCheck now jobs
    match sw.jobs.find? (isActiveFor uid) with
    | some j =>
      .ok { job_id := j.id
          , message := "A sync is already in progress. Please wait for it to complete."
          , status := if j.status = "" then "pending" else j.status
          , jobs := sw.jobs
          , lastCheck := sw.lastCheck }
    | none =>
      .ok { job_id := newId
          , message := "Sync started successfully"
          , status := "pending"
          , jobs := sw.jobs ++ [newPendingJob uid newId now]
          , lastCheck := sw.lastCheck }

/-- A sync_job_logs row (models.SyncJobLog): owned by one job, with a
level, message and a structured details map (JSON object modelled as a
key-value list). -/
structure SyncJobLog where
  sync_job_id : Nat
  timestamp : Int
  level : String
  message : String
  details : List (String × String)
deriving DecidableEq, Repr

/-- The database session as the logger sees it: the committed log rows. -/
structure LogSession where
  committed : List SyncJobLog
deriving DecidableEq, Repr

/-- The row built by SyncJobLogger._create_log_entry; a missing details
argument is stored as the empty dict (details or empty). -/
def mkLogEntry (jobId : Nat) (now : Int) (level message : String)
    (details : Option (List (String × String))) : SyncJobLog :=
  { sync_job_id := jobId
  , timestamp := now
  , level := level
  , message := message
  , details := details.getD [] }

/-- The fallible body of the try block in _create_log_entry: add the
row and commit.  failure models any exception raised while persisting
(the except-clause scenario); on success the row is appended to the
committed rows. -/
def tryPersistLog (failure : Option String) (s : LogSession)
    (entry : SyncJobLog) : Except String LogSession :=
  match failure with
  | some e => .error e
  | none => .ok { committed := s.committed ++ [entry] }

/-- SyncJobLogger._create_log_entry: runs the fallible persist; on any
exception it rolls the session back (pending work discarded, committed
rows untouched) and swallows the error.  The function is total: no
failure propagates to the caller. -/
def _create_log_entry (failure : Option String) (s : LogSession)
    (jobId : Nat) (now : Int) (level message : String)
    (details : Option (List (String × String))) : LogSession :=
  match tryPersistLog failure s (mkLogEntry jobId now level message details) with
  | .ok s2 => s2
  | .error _ => s

/-- One tr row of the rentals table as the harvest loop sees it:
its cell count, whether cell 1 holds a detail link, the record id the
loop derives for it (the regex match on the href, falling back to a
synthetic id from the display name, so an id always exists), and
whether the remaining per-row parsing completes without raising (a
raise after the id was added to processed_ids skips only the append). -/
structure ScrapedRow where
  id : String
  cellCount : Nat
  hasLink : Bool
  parseOk : Bool
deriving DecidableEq, Repr

/-- The max_scroll_attempts safety limit of scrape_rentals. -/
def maxScrollAttempts : Nat := 50

/-- The MAX_NO_NEW_CONTENT_ATTEMPTS constant of scrape_rentals. -/
def maxNoNewContentAttempts : Nat := 4

/-- Mutable state of the infinite-scroll loop in scrape_rentals. -/
structure ScrollState where
  processed : List String
  rentals : List String
  scrollCount : Nat
  lastRowCount : Nat
  noNewCount : Nat
deriving DecidableEq, Repr

/-- The per-pass row sweep of scrape_rentals: rows with fewer than 8
cells or no detail link are skipped; a row whose id was already
processed is skipped; otherwise the id joins processed_ids and, if the
rest of the row parses, the rental joins the snapshot (rentals tracks
the ids of the appended rental dicts). -/
def processRow (acc : ScrollState) (row : ScrapedRow) : ScrollState :=
  if row.cellCount < 8 || !row.hasLink then acc
  else if acc.processed.contains row.id then acc
  else
    { acc with
      processed := acc.processed ++ [row.id]
    , rentals :=
        if row.parseOk then acc.rentals ++ [row.id] else acc.rentals }

def processRows (rows : List ScrapedRow) (st : ScrollState) : ScrollState :=
  rows.foldl processRow st

/-- The Python truthiness test "if max_rentals and len(all_rentals) >=
max_rentals" guarding the early stop. -/
def hitsLimit (maxRentals : Option Nat) (len : Nat) : Bool :=
  match maxRentals with
  | none => false
  | some m => decide (m ≠ 0) && decide (len ≥ m)

/-- The while loop of scrape_rentals.  The fuel argument is the number
of passes the while condition scroll_count < max_scroll_attempts still
permits, so the loop is structurally terminating exactly because of the
pass ceiling.  One pass: read the rows currently in the DOM (dom gives
the rows rendered when pass number scrollCount runs), sweep them, then
compare the DOM row count with last_row_count — if unchanged for the
fourth consecutive time, break; otherwise scroll, increment
scroll_count and break early when the rental limit is hit. -/
def scrapeRentalsLoop (dom : Nat → List ScrapedRow)
    (maxRentals : Option Nat) : Nat → ScrollState → ScrollState
  | 0, st => st
  | Nat.succ fuel, st =>
    let rows := dom st.scrollCount
    let cur := rows.length
    let st1 := processRows rows st
    if cur = st.lastRowCount ∧ st.noNewCount + 1 ≥ maxNoNewContentAttempts then
      { st1 with noNewCount := st.noNewCount + 1 }
    else
      let st2 :=
        if cur = st.lastRowCount then
          { st1 with
            noNewCount := st.noNewCount + 1
          , scrollCount := st.scrollCount + 1 }
        else
          { st1 with
            noNewCount := 0
          , lastRowCount := cur
          , scrollCount := st.scrollCount + 1 }
      if hitsLimit maxRentals st2.rentals.length then st2
      else scrapeRentalsLoop dom maxRentals fuel st2

/-- The final truncation of scrape_rentals: "if max_rentals and
len(all_rentals) > max_rentals: return all_rentals[:max_rentals]". -/
def truncateRentals (maxRentals : Option Nat) (l : List String) : List String :=
  match maxRentals with
  | none => l
  | some m => if m ≠ 0 ∧ l.length > m then l.take m else l

/-- GibneyScraper.scrape_rentals, abstracted over the DOM trace: runs
the scroll loop from the initial counters and applies the final
truncation; returns the snapshot (as rental ids) and the final loop
state. -/
def scrape_rentals (dom : Nat → List ScrapedRow)
    (maxRentals : Option Nat) : List String × ScrollState :=
  let st0 : ScrollState :=
    { processed := [], rentals := [], scrollCount := 0
    , lastRowCount := 0, noNewCount := 0 }
  let fin := scrapeRentalsLoop dom maxRentals maxScrollAttempts st0
  (truncateRentals maxRentals fin.rentals, fin)

/-! Helper lemmas. -/

theorem pyFloatOrZero_some (q : Rat) : pyFloatOrZero (some q) = q := by
  by_cases h : q = 0 <;> simp [pyFloatOrZero, h]

theorem relevantOfBooking_mkBooking (uid : String) (t : Int) (d : BookingData) :
    relevantOfBooking (mkBooking uid t d) = relevantOfData d := by
  simp [relevantOfBooking, mkBooking, relevantOfData, pyFloatOrZero_some]

theorem relevantOfBooking_overwrite (b : Booking) (d : BookingData) (t : Int) :
    relevantOfBooking (overwriteBooking b d t) = relevantOfData d := by
  simp [relevantOfBooking, overwriteBooking, relevantOfData, pyFloatOrZero_some]

theorem relevantOfBooking_touch (b : Booking) (t : Int) :
    relevantOfBooking (touchBooking b t) = relevantOfBooking b := rfl

theorem applyOp_id (b : Booking) (op : UpdateOp) : (applyOp b op).id = b.id := by
  cases op with
  | full i d t =>
    by_cases h : b.id = i <;> simp [applyOp, overwriteBooking, h]
  | touchOnly i t =>
    by_cases h : b.id = i <;> simp [applyOp, touchBooking, h]

theorem applyOps_id (ops : List UpdateOp) (b : Booking) :
    (applyOps ops b).id = b.id := by
  induction ops generalizing b with
  | nil => rfl
  | cons op rest ih =>
    rw [applyOps, List.foldl_cons]
    exact (ih (applyOp b op)).trans (applyOp_id b op)

theorem applyOp_of_key_ne (b : Booking) (op : UpdateOp) (h : op.key ≠ b.id) :
    applyOp b op = b := by
  cases op with
  | full i d t =>
    have : ¬b.id = i := fun hh => h (by simpa [UpdateOp.key] using hh.symm)
    simp [applyOp, this]
  | touchOnly i t =>
    have : ¬b.id = i := fun hh => h (by simpa [UpdateOp.key] using hh.symm)
    simp [applyOp, this]

theorem applyOps_of_keys_ne (ops : List UpdateOp) (b : Booking)
    (h : ∀ op ∈ ops, op.key ≠ b.id) : applyOps ops b = b := by
  induction ops with
  | nil => rfl
  | cons op rest ih =>
    rw [applyOps, List.foldl_cons, applyOp_of_key_ne b op (h op (by simp))]
    exact ih fun o ho => h o (by simp [ho])

theorem findExisting_eq_none_iff (rows : List Booking) (i : String) :
    findExisting rows i = none ↔ ∀ b ∈ rows, b.id ≠ i := by
  simp [findExisting, List.find?_eq_none]

theorem findExisting_mem {rows : List Booking} {i : String} {b : Booking}
    (h : findExisting rows i = some b) : b ∈ rows ∧ b.id = i := by
  have hm := List.mem_of_find?_eq_some h
  have hp := List.find?_some h
  exact ⟨List.mem_reverse.mp hm, by simpa using hp⟩

theorem findExisting_of_nodup {rows : List Booking} {b : Booking}
    (hr : (rows.map Booking.id).Nodup) (hb : b ∈ rows) :
    findExisting rows b.id = some b := by
  cases hfe : findExisting rows b.id with
  | none =>
    exact absurd rfl ((findExisting_eq_none_iff rows b.id).mp hfe b hb)
  | some b2 =>
    obtain ⟨hb2, hid⟩ := findExisting_mem hfe
    have hinj := List.inj_on_of_nodup_map hr
    exact congrArg some (hinj hb2 hb hid)

/-- C2: content hashing is stable and representation-independent.  Two
scraped records agreeing on the seven mutable fields (name, start_time,
end_time, studio, location, status, price) hash to the same digest even
when the remaining fields (id, record_url) differ — the serialization is
keyed and key-sorted, so construction order cannot influence it — and
create_booking_hash over a scraped record dict coincides with
Booking.create_hash on a stored row holding the same field values.  H
ranges over every digest function, in particular the sha256-of-sorted-
keys-JSON used by the code. -/
theorem booking_hash_stable (H : RelevantFields → String)
    (d1 d2 : BookingData) (b : Booking)
    (hn : d1.name = d2.name) (hs : d1.start_time = d2.start_time)
    (he : d1.end_time = d2.end_time) (hst : d1.studio = d2.studio)
    (hl : d1.location = d2.location) (hst2 : d1.status = d2.status)
    (hp : d1.price = d2.price)
    (hbn : b.name = d1.name) (hbs : b.start_time = d1.start_time)
    (hbe : b.end_time = d1.end_time) (hbst : b.studio = d1.studio)
    (hbl : b.location = d1.location) (hbst2 : b.status = d1.status)
    (hbp : b.price = some d1.price) :
    create_booking_hash H d1 = create_booking_hash H d2 ∧
    Booking.create_hash H b = create_booking_hash H d1 := by
  constructor
  · apply congrArg H
    simp [relevantOfData, hn, hs, he, hst, hl, hst2, hp]
  · apply congrArg H
    simp [relevantOfData, relevantOfBooking, hbn, hbs, hbe, hbst, hbl,
      hbst2, hbp, pyFloatOrZero_some]

/-- Concrete instance of booking_hash_stable: two records differing
only in id and record_url, and a stored row with the same field
values, all hash identically under a concrete digest function. -/
theorem booking_hash_stable_witness :
    create_booking_hash (fun r => r.name ++ r.status)
        { id := "a27Pb000000001", name := "R-490015"
        , start_time := ⟨"2024-01-15 10:00:00+00:00"⟩
        , end_time := ⟨"2024-01-15 12:00:00+00:00"⟩
        , studio := "Studio A", location := "Loc1", status := "Confirmed"
        , price := 50, record_url := "https://gibney.my.site.com/a" } =
      create_booking_hash (fun r => r.name ++ r.status)
        { id := "a27Pb000000002", name := "R-490015"
        , start_time := ⟨"2024-01-15 10:00:00+00:00"⟩
        , end_time := ⟨"2024-01-15 12:00:00+00:00"⟩
        , studio := "Studio A", location := "Loc1", status := "Confirmed"
        , price := 50, record_url := "https://gibney.my.site.com/b" } ∧
    Booking.create_hash (fun r => r.name ++ r.status)
        { id := "a27Pb000000009", user_id := "u1", name := "R-490015"
        , start_time := ⟨"2024-01-15 10:00:00+00:00"⟩
        , end_time := ⟨"2024-01-15 12:00:00+00:00"⟩
        , studio := "Studio A", location := "Loc1", status := "Confirmed"
        , price := some 50, record_url := none, last_seen := 0 } =
      create_booking_hash (fun r => r.name ++ r.status)
        { id := "a27Pb000000001", name := "R-490015"
        , start_time := ⟨"2024-01-15 10:00:00+00:00"⟩
        , end_time := ⟨"2024-01-15 12:00:00+00:00"⟩
        , studio := "Studio A", location := "Loc1", status := "Confirmed"
        , price := 50, record_url := "https://gibney.my.site.com/a" } :=
  booking_hash_stable (fun r => r.name ++ r.status) _ _ _
    rfl rfl rfl rfl rfl rfl rfl rfl rfl rfl rfl rfl rfl rfl

/-- C10: Booking.create_hash coerces a NULL price to 0.0 through
float(price or 0), so a stored row with NULL price hashes identically
to a scraped record whose price parsed to 0 — the default parse_price
yields for empty, "free" (case-insensitive) and unparseable price
strings — whenever the other mutable fields agree; consequently the
reconcile classification (classifyRecord, the hash comparison inside
scrape_user_bookings) marks such a record unchanged against the stored
row, and the full reconcile step counts it as unchanged with no
update. -/
theorem null_price_hashes_as_zero (H : RelevantFields → String)
    (floatOf : String → Option Rat) (b : Booking) (d : BookingData)
    (now : Int) (uid : String)
    (hid : b.id = d.id) (hp : b.price = none) (hdp : d.price = 0)
    (hn : b.name = d.name) (hs : b.start_time = d.start_time)
    (he : b.end_time = d.end_time) (hst : b.studio = d.studio)
    (hl : b.location = d.location) (hst2 : b.status = d.status) :
    Booking.create_hash H b = create_booking_hash H d ∧
    classifyRecord H [b] d = some false ∧
    (reconcileBookings H now uid [b] [d]).unchanged = 1 ∧
    (reconcileBookings H now uid [b] [d]).updated = 0 ∧
    (reconcileBookings H now uid [b] [d]).created = 0 ∧
    parse_price floatOf "" = 0 ∧
    parse_price floatOf "Free" = 0 ∧
    (∀ s, ¬(s = "" ∨ pyLower s = "free") → ¬s.startsWith "$" →
      floatOf s = none → parse_price floatOf s = 0) ∧
    (∀ s, ¬(s = "" ∨ pyLower s = "free") → s.startsWith "$" →
      floatOf ((s.drop 1).replace "," "") = none →
      parse_price floatOf s = 0) := by
  have hhash : Booking.create_hash H b = create_booking_hash H d := by
    apply congrArg H
    simp [relevantOfBooking, relevantOfData, hn, hs, he, hst, hl, hst2,
      hp, hdp, pyFloatOrZero]
  have hfind : findExisting [b] d.id = some b := by
    simp [findExisting, hid]
  have hclass : classifyRecord H [b] d = some false := by
    simp [classifyRecord, hfind, hhash]
  refine ⟨hhash, hclass, ?_, ?_, ?_, ?_, ?_, ?_, ?_⟩
  · simp [reconcileBookings, hclass]
  · simp [reconcileBookings, hclass]
  · simp [reconcileBookings, hclass]
  · simp [parse_price]
  · have hfree : pyLower "Free" = "free" := by decide
    simp [parse_price, hfree]
  · intro s h1 h2 h3
    simp [parse_price, h1, h2, h3]
  · intro s h1 h2 h3
    simp [parse_price, h1, h2, h3]

/-- Concrete instance of null_price_hashes_as_zero: a stored row with
NULL price is classified unchanged against a scraped record with price
0 and the same remaining fields. -/
theorem null_price_hashes_as_zero_witness :
    Booking.create_hash (fun r => r.name ++ r.studio)
        { id := "B1", user_id := "u1", name := "R-1"
        , start_time := ⟨"2024-01-15 10:00:00+00:00"⟩
        , end_time := ⟨"2024-01-15 12:00:00+00:00"⟩
        , studio := "Studio A", location := "Loc1", status := "Confirmed"
        , price := none, record_url := none, last_seen := 5 } =
      create_booking_hash (fun r => r.name ++ r.studio)
        { id := "B1", name := "R-1"
        , start_time := ⟨"2024-01-15 10:00:00+00:00"⟩
        , end_time := ⟨"2024-01-15 12:00:00+00:00"⟩
        , studio := "Studio A", location := "Loc1", status := "Confirmed"
        , price := 0, record_url := "u" } ∧
    classifyRecord (fun r => r.name ++ r.studio)
        [{ id := "B1", user_id := "u1", name := "R-1"
         , start_time := ⟨"2024-01-15 10:00:00+00:00"⟩
         , end_time := ⟨"2024-01-15 12:00:00+00:00"⟩
         , studio := "Studio A", location := "Loc1", status := "Confirmed"
         , price := none, record_url := none, last_seen := 5 }]
        { id := "B1", name := "R-1"
        , start_time := ⟨"2024-01-15 10:00:00+00:00"⟩
        , end_time := ⟨"2024-01-15 12:00:00+00:00"⟩
        , studio := "Studio A", location := "Loc1", status := "Confirmed"
        , price := 0, record_url := "u" } = some false ∧
    (reconcileBookings (fun r => r.name ++ r.studio) 9 "u1"
        [{ id := "B1", user_id := "u1", name := "R-1"
         , start_time := ⟨"2024-01-15 10:00:00+00:00"⟩
         , end_time := ⟨"2024-01-15 12:00:00+00:00"⟩
         , studio := "Studio A", location := "Loc1", status := "Confirmed"
         , price := none, record_url := none, last_seen := 5 }]
        [{ id := "B1", name := "R-1"
         , start_time := ⟨"2024-01-15 10:00:00+00:00"⟩
         , end_time := ⟨"2024-01-15 12:00:00+00:00"⟩
         , studio := "Studio A", location := "Loc1", status := "Confirmed"
         , price := 0, record_url := "u" }]).unchanged = 1 := by
  have T := null_price_hashes_as_zero (fun r => r.name ++ r.studio)
    (fun _ => none)
    { id := "B1", user_id := "u1", name := "R-1"
    , start_time := ⟨"2024-01-15 10:00:00+00:00"⟩
    , end_time := ⟨"2024-01-15 12:00:00+00:00"⟩
    , studio := "Studio A", location := "Loc1", status := "Confirmed"
    , price := none, record_url := none, last_seen := 5 }
    { id := "B1", name := "R-1"
    , start_time := ⟨"2024-01-15 10:00:00+00:00"⟩
    , end_time := ⟨"2024-01-15 12:00:00+00:00"⟩
    , studio := "Studio A", location := "Loc1", status := "Confirmed"
    , price := 0, record_url := "u" }
    9 "u1" rfl rfl rfl rfl rfl rfl rfl rfl rfl
  exact ⟨T.1, T.2.1, T.2.2.1⟩

/-- C9: the job logger is best-effort.  _create_log_entry is a total
function on the session: when persisting succeeds it appends exactly
one SyncJobLog row, scoped to the given job id, to the committed rows;
when persisting raises any exception it rolls the session back,
leaving the committed rows exactly as they were, and swallows the
error, so no logging failure ever reaches the calling sync. -/
theorem sync_logger_best_effort (failure : Option String) (s : LogSession)
    (jobId : Nat) (now : Int) (level message : String)
    (details : Option (List (String × String))) :
    (failure = none →
      (_create_log_entry failure s jobId now level message details).committed =
        s.committed ++ [mkLogEntry jobId now level message details] ∧
      (mkLogEntry jobId now level message details).sync_job_id = jobId) ∧
    (∀ e, failure = some e →
      _create_log_entry failure s jobId now level message details = s) := by
  constructor
  · intro h
    subst h
    exact ⟨rfl, rfl⟩
  · intro e h
    subst h
    rfl

/-- Concrete instances of sync_logger_best_effort: a successful call
appends the one row; a failing call leaves the committed rows
untouched. -/
theorem sync_logger_best_effort_witness :
    (_create_log_entry none ⟨[]⟩ 7 3 "INFO" "Starting booking scrape"
        none).committed =
      [] ++ [mkLogEntry 7 3 "INFO" "Starting booking scrape" none] ∧
    _create_log_entry (some "database connection lost") ⟨[]⟩ 7 3 "INFO"
        "Starting booking scrape" none = ⟨[]⟩ :=
  ⟨(sync_logger_best_effort none ⟨[]⟩ 7 3 "INFO" "Starting booking scrape"
      none).1 rfl |>.1,
   (sync_logger_best_effort (some "database connection lost") ⟨[]⟩ 7 3
      "INFO" "Starting booking scrape" none).2 "database connection lost" rfl⟩

/-- C7: the stale sweep is rate-limited to one pass per 60-second
interval.  If the previous call actually performed its sweep (its
resulting _last_stale_check_time is its call time now1), then any call
arriving strictly less than 60 seconds later returns count 0, leaves
the jobs table exactly as it found it, and leaves the shared timestamp
unchanged, whatever timeout it was given. -/
theorem stale_sweep_rate_limited (lc : Option Int) (now1 now2 : Int)
    (jobs1 jobs2 : List SyncJob) (tm1 tm2 : Int)
    (hswept : (check_and_mark_stale_jobs lc now1 jobs1 tm1).lastCheck = some now1)
    (hsoon : now2 - now1 < staleCheckInterval) :
    check_and_mark_stale_jobs
        ((check_and_mark_stale_jobs lc now1 jobs1 tm1).lastCheck)
        now2 jobs2 tm2 =
      { count := 0, jobs := jobs2, lastCheck := some now1 } := by
  rw [hswept]
  simp [check_and_mark_stale_jobs, hsoon]

/-- Concrete instance of stale_sweep_rate_limited: a sweep at time 1000
followed by a call at time 1030 skips: count 0 and the running job
untouched. -/
theorem stale_sweep_rate_limited_witness :
    check_and_mark_stale_jobs
        ((check_and_mark_stale_jobs none 1000
            [{ id := 1, user_id := "u1", status := "running"
             , progress := none, bookings_synced := 0
             , error_message := none, started_at := 0
             , completed_at := none, last_updated_at := 0
             , triggered_manually := false }] 10).lastCheck)
        1030
        [{ id := 1, user_id := "u1", status := "running"
         , progress := none, bookings_synced := 0
         , error_message := none, started_at := 0
         , completed_at := none, last_updated_at := 0
         , triggered_manually := false }] 10 =
      { count := 0
      , jobs := [{ id := 1, user_id := "u1", status := "running"
                 , progress := none, bookings_synced := 0
                 , error_message := none, started_at := 0
                 , completed_at := none, last_updated_at := 0
                 , triggered_manually := false }]
      , lastCheck := some 1000 } :=
  stale_sweep_rate_limited none 1000 1030 _ _ 10 10 rfl (by decide)

/-- C8: retention cleanup.  cleanup_old_sync_jobs deletes exactly the
jobs whose status is completed or failed and whose started_at is older
than now minus days_to_keep days: every such job is gone from the
resulting table, every other job — within the window, or pending or
running at any age — survives, and the returned count is the number of
deleted jobs. -/
theorem cleanup_retention (now : Int) (jobs : List SyncJob) (days : Int) :
    (∀ j ∈ jobs, (j.status = "completed" ∨ j.status = "failed") →
      j.started_at < now - days * 86400 →
      j ∉ (cleanup_old_sync_jobs now jobs days).jobs) ∧
    (∀ j ∈ jobs,
      ¬((j.status = "completed" ∨ j.status = "failed") ∧
        j.started_at < now - days * 86400) →
      j ∈ (cleanup_old_sync_jobs now jobs days).jobs) ∧
    (cleanup_old_sync_jobs now jobs days).count =
      jobs.countP (isOldJob now days) := by
  have hiff : ∀ j : SyncJob, isOldJob now days j = true ↔
      ((j.status = "completed" ∨ j.status = "failed") ∧
        j.started_at < now - days * 86400) := by
    intro j
    simp [isOldJob]
  refine ⟨?_, ?_, rfl⟩
  · intro j hj hst hage hmem
    have := (List.mem_filter.mp hmem).2
    rw [Bool.not_eq_true'] at this
    exact absurd ((hiff j).mpr ⟨hst, hage⟩) (by simp [this])
  · intro j hj hnot
    refine List.mem_filter.mpr ⟨hj, ?_⟩
    rcases h : isOldJob now days j with _ | _
    · simp
    · exact absurd ((hiff j).mp h) hnot

/-- Concrete instance of cleanup_retention with a 30-day window: a
completed job started 35 days ago is removed, a completed job started 5
days ago survives, and a running job started 100 days ago survives. -/
theorem cleanup_retention_witness :
    { id := 1, user_id := "u1", status := "completed"
    , progress := none, bookings_synced := 3, error_message := none
    , started_at := 5616000, completed_at := some 5617000
    , last_updated_at := 5617000, triggered_manually := false } ∉
      (cleanup_old_sync_jobs 8640000
        [{ id := 1, user_id := "u1", status := "completed"
         , progress := none, bookings_synced := 3, error_message := none
         , started_at := 5616000, completed_at := some 5617000
         , last_updated_at := 5617000, triggered_manually := false },
         { id := 2, user_id := "u1", status := "completed"
         , progress := none, bookings_synced := 3, error_message := none
         , started_at := 8208000, completed_at := some 8209000
         , last_updated_at := 8209000, triggered_manually := false },
         { id := 3, user_id := "u2", status := "running"
         , progress := none, bookings_synced := 0, error_message := none
         , started_at := 0, completed_at := none
         , last_updated_at := 8630000, triggered_manually := false }]
        30).jobs ∧
    { id := 2, user_id := "u1", status := "completed"
    , progress := none, bookings_synced := 3, error_message := none
    , started_at := 8208000, completed_at := some 8209000
    , last_updated_at := 8209000, triggered_manually := false } ∈
      (cleanup_old_sync_jobs 8640000
        [{ id := 1, user_id := "u1", status := "completed"
         , progress := none, bookings_synced := 3, error_message := none
         , started_at := 5616000, completed_at := some 5617000
         , last_updated_at := 5617000, triggered_manually := false },
         { id := 2, user_id := "u1", status := "completed"
         , progress := none, bookings_synced := 3, error_message := none
         , started_at := 8208000, completed_at := some 8209000
         , last_updated_at := 8209000, triggered_manually := false },
         { id := 3, user_id := "u2", status := "running"
         , progress := none, bookings_synced := 0, error_message := none
         , started_at := 0, completed_at := none
         , last_updated_at := 8630000, triggered_manually := false }]
        30).jobs ∧
    { id := 3, user_id := "u2", status := "running"
    , progress := none, bookings_synced := 0, error_message := none
    , started_at := 0, completed_at := none
    , last_updated_at := 8630000, triggered_manually := false } ∈
      (cleanup_old_sync_jobs 8640000
        [{ id := 1, user_id := "u1", status := "completed"
         , progress := none, bookings_synced := 3, error_message := none
         , started_at := 5616000, completed_at := some 5617000
         , last_updated_at := 5617000, triggered_manually := false },
         { id := 2, user_id := "u1", status := "completed"
         , progress := none, bookings_synced := 3, error_message := none
         , started_at := 8208000, completed_at := some 8209000
         , last_updated_at := 8209000, triggered_manually := false },
         { id := 3, user_id := "u2", status := "running"
         , progress := none, bookings_synced := 0, error_message := none
         , started_at := 0, completed_at := none
         , last_updated_at := 8630000, triggered_manually := false }]
        30).jobs := by
  have T := cleanup_retention 8640000
    [{ id := 1, user_id := "u1", status := "completed"
     , progress := none, bookings_synced := 3, error_message := none
     , started_at := 5616000, completed_at := some 5617000
     , last_updated_at := 5617000, triggered_manually := false },
     { id := 2, user_id := "u1", status := "completed"
     , progress := none, bookings_synced := 3, error_message := none
     , started_at := 8208000, completed_at := some 8209000
     , last_updated_at := 8209000, triggered_manually := false },
     { id := 3, user_id := "u2", status := "running"
     , progress := none, bookings_synced := 0, error_message := none
     , started_at := 0, completed_at := none
     , last_updated_at := 8630000, triggered_manually := false }]
    30
  exact ⟨T.1 _ (by simp) (by simp) (by decide),
    T.2.1 _ (by simp) (by decide),
    T.2.1 _ (by simp) (by decide)⟩

/-- C4: stale recovery.  Whenever the sweep is not rate-limit-skipped
(no previous check, or the previous check is at least 60 seconds old),
check_and_mark_stale_jobs maps the jobs table in one pass: every
running job whose heartbeat last_updated_at is older than now minus
timeout minutes becomes the failed job markJobFailed produces — status
failed with an error message containing the words "timed out" — while
every running job with a fresh heartbeat and every job not in running
status is left exactly as it was; the returned count is the number of
stale jobs, so each stale job transitions exactly once per sweep. -/
theorem stale_sweep_marks_stale (lc : Option Int) (now : Int)
    (jobs : List SyncJob) (tm : Int)
    (hrun : lc = none ∨ ∃ t, lc = some t ∧ staleCheckInterval ≤ now - t) :
    (check_and_mark_stale_jobs lc now jobs tm).jobs =
      jobs.map (fun j =>
        if isStaleJob now tm j then markJobFailed now tm j else j) ∧
    (check_and_mark_stale_jobs lc now jobs tm).count =
      jobs.countP (isStaleJob now tm) ∧
    (∀ j ∈ jobs, j.status = "running" →
      j.last_updated_at < now - tm * 60 →
      markJobFailed now tm j ∈ (check_and_mark_stale_jobs lc now jobs tm).jobs ∧
      (markJobFailed now tm j).status = "failed" ∧
      ∃ pre post,
        (markJobFailed now tm j).error_message =
          some (pre ++ ("timed out" ++ post))) ∧
    (∀ j ∈ jobs, j.status = "running" →
      now - tm * 60 ≤ j.last_updated_at →
      j ∈ (check_and_mark_stale_jobs lc now jobs tm).jobs) ∧
    (∀ j ∈ jobs, j.status ≠ "running" →
      j ∈ (check_and_mark_stale_jobs lc now jobs tm).jobs) := by
  have hout : check_and_mark_stale_jobs lc now jobs tm =
      { count := jobs.countP (isStaleJob now tm)
      , jobs := jobs.map (fun j =>
          if isStaleJob now tm j then markJobFailed now tm j else j)
      , lastCheck := some now } := by
    rcases hrun with h | ⟨t, ht, hold⟩
    · subst h
      rfl
    · subst ht
      have : ¬(now - t < staleCheckInterval) := by omega
      simp [check_and_mark_stale_jobs, this]
  refine ⟨by rw [hout], by rw [hout], ?_, ?_, ?_⟩
  · intro j hj hstat hage
    have hstale : isStaleJob now tm j = true := by
      simp [isStaleJob, hstat, hage]
    refine ⟨?_, rfl, "Sync ", " after " ++ toString tm ++ " minutes", ?_⟩
    · rw [hout]
      exact List.mem_map.mpr ⟨j, hj, by simp [hstale]⟩
    · show (markJobFailed now tm j).error_message = _
      rw [markJobFailed]
      rw [← String.append_assoc, ← String.append_assoc, ← String.append_assoc]
      rfl
  · intro j hj hstat hfresh
    have hstale : isStaleJob now tm j = false := by
      simp [isStaleJob, hstat]
      omega
    rw [hout]
    exact List.mem_map.mpr ⟨j, hj, by simp [hstale]⟩
  · intro j hj hstat
    have hstale : isStaleJob now tm j = false := by
      simp [isStaleJob, hstat]
    rw [hout]
    exact List.mem_map.mpr ⟨j, hj, by simp [hstale]⟩

/-- Concrete instance of stale_sweep_marks_stale: with timeout 10
minutes, a running job whose heartbeat is 15 minutes old is marked
failed with the timeout message, while a running job with a 100-second-
old heartbeat and a completed job are untouched. -/
theorem stale_sweep_marks_stale_witness :
    markJobFailed 10000 10
        { id := 1, user_id := "u1", status := "running"
        , progress := some "Processing", bookings_synced := 0
        , error_message := none, started_at := 8000
        , completed_at := none, last_updated_at := 9100
        , triggered_manually := false } ∈
      (check_and_mark_stale_jobs none 10000
        [{ id := 1, user_id := "u1", status := "running"
         , progress := some "Processing", bookings_synced := 0
         , error_message := none, started_at := 8000
         , completed_at := none, last_updated_at := 9100
         , triggered_manually := false },
         { id := 2, user_id := "u2", status := "running"
         , progress := none, bookings_synced := 0
         , error_message := none, started_at := 9000
         , completed_at := none, last_updated_at := 9900
         , triggered_manually := false },
         { id := 3, user_id := "u3", status := "completed"
         , progress := none, bookings_synced := 4
         , error_message := none, started_at := 100
         , completed_at := some 200, last_updated_at := 200
         , triggered_manually := true }] 10).jobs ∧
    (markJobFailed 10000 10
        { id := 1, user_id := "u1", status := "running"
        , progress := some "Processing", bookings_synced := 0
        , error_message := none, started_at := 8000
        , completed_at := none, last_updated_at := 9100
        , triggered_manually := false }).status = "failed" ∧
    (markJobFailed 10000 10
        { id := 1, user_id := "u1", status := "running"
        , progress := some "Processing", bookings_synced := 0
        , error_message := none, started_at := 8000
        , completed_at := none, last_updated_at := 9100
        , triggered_manually := false }).error_message =
      some "Sync timed out after 10 minutes" ∧
    { id := 2, user_id := "u2", status := "running"
    , progress := none, bookings_synced := 0
    , error_message := none, started_at := 9000
    , completed_at := none, last_updated_at := 9900
    , triggered_manually := false } ∈
      (check_and_mark_stale_jobs none 10000
        [{ id := 1, user_id := "u1", status := "running"
         , progress := some "Processing", bookings_synced := 0
         , error_message := none, started_at := 8000
         , completed_at := none, last_updated_at := 9100
         , triggered_manually := false },
         { id := 2, user_id := "u2", status := "running"
         , progress := none, bookings_synced := 0
         , error_message := none, started_at := 9000
         , completed_at := none, last_updated_at := 9900
         , triggered_manually := false },
         { id := 3, user_id := "u3", status := "completed"
         , progress := none, bookings_synced := 4
         , error_message := none, started_at := 100
         , completed_at := some 200, last_updated_at := 200
         , triggered_manually := true }] 10).jobs ∧
    { id := 3, user_id := "u3", status := "completed"
    , progress := none, bookings_synced := 4
    , error_message := none, started_at := 100
    , completed_at := some 200, last_updated_at := 200
    , triggered_manually := true } ∈
      (check_and_mark_stale_jobs none 10000
        [{ id := 1, user_id := "u1", status := "running"
         , progress := some "Processing", bookings_synced := 0
         , error_message := none, started_at := 8000
         , completed_at := none, last_updated_at := 9100
         , triggered_manually := false },
         { id := 2, user_id := "u2", status := "running"
         , progress := none, bookings_synced := 0
         , error_message := none, started_at := 9000
         , completed_at := none, last_updated_at := 9900
         , triggered_manually := false },
         { id := 3, user_id := "u3", status := "completed"
         , progress := none, bookings_synced := 4
         , error_message := none, started_at := 100
         , completed_at := some 200, last_updated_at := 200
         , triggered_manually := true }] 10).jobs := by
  have T := stale_sweep_marks_stale none 10000
    [{ id := 1, user_id := "u1", status := "running"
     , progress := some "Processing", bookings_synced := 0
     , error_message := none, started_at := 8000
     , completed_at := none, last_updated_at := 9100
     , triggered_manually := false },
     { id := 2, user_id := "u2", status := "running"
     , progress := none, bookings_synced := 0
     , error_message := none, started_at := 9000
     , completed_at := none, last_updated_at := 9900
     , triggered_manually := false },
     { id := 3, user_id := "u3", status := "completed"
     , progress := none, bookings_synced := 4
     , error_message := none, started_at := 100
     , completed_at := some 200, last_updated_at := 200
     , triggered_manually := true }] 10 (Or.inl rfl)
  refine ⟨(T.2.2.1 _ (by simp) rfl (by decide)).1, rfl, rfl,
    T.2.2.2.1 _ (by simp) rfl (by decide),
    T.2.2.2.2 _ (by simp) (by decide)⟩

/-- C5: deletion by absence.  After the reconcile step of
scrape_user_bookings runs on a successful harvest snapshot, no row of
the owner whose external id is absent from the snapshot ids survives;
every row whose id is present in the snapshot still has a row with that
id (so present rows are never deleted); and the empty snapshot deletes
every existing local booking of the owner. -/
theorem reconcile_deletion_by_absence (H : RelevantFields → String)
    (now : Int) (uid : String) (rows : List Booking)
    (data : List BookingData) :
    (∀ b ∈ rows, (∀ d ∈ data, d.id ≠ b.id) →
      ∀ b2 ∈ (reconcileBookings H now uid rows data).store, b2.id ≠ b.id) ∧
    (∀ b ∈ rows, (∃ d ∈ data, d.id = b.id) →
      ∃ b2 ∈ (reconcileBookings H now uid rows data).store, b2.id = b.id) ∧
    (data = [] →
      (reconcileBookings H now uid rows data).store = [] ∧
      (reconcileBookings H now uid rows data).deleted = rows.length) := by
  refine ⟨?_, ?_, ?_⟩
  · intro b hb habs b2 hb2 heq
    rw [reconcileBookings] at hb2
    simp only [List.mem_map, List.mem_append] at hb2
    obtain ⟨b0, hb0, hb0eq⟩ := hb2
    have hid : b2.id = b0.id := by
      rw [← hb0eq]
      exact applyOps_id _ _
    rcases hb0 with hkept | hins
    · have hkeep := (List.mem_filter.mp hkept).2
      rw [List.any_eq_true] at hkeep
      obtain ⟨d, hd, hdid⟩ := hkeep
      rw [beq_iff_eq] at hdid
      exact habs d hd (by rw [hdid, ← hid, heq])
    · simp only [List.mem_map, List.mem_filter] at hins
      obtain ⟨d, ⟨hd, _⟩, hdeq⟩ := hins
      have : b0.id = d.id := by
        rw [← hdeq]
        rfl
      exact habs d hd (by rw [← this, ← hid, heq])
  · intro b hb ⟨d, hd, hdid⟩
    rw [reconcileBookings]
    simp only [List.mem_map, List.mem_append]
    refine ⟨_, ⟨b, Or.inl (List.mem_filter.mpr ⟨hb, ?_⟩), rfl⟩, applyOps_id _ _⟩
    rw [List.any_eq_true]
    exact ⟨d, hd, beq_iff_eq.mpr hdid⟩
  · intro h
    subst h
    simp [reconcileBookings]

/-- Concrete instance of reconcile_deletion_by_absence: one stored row
and the empty snapshot — the row is deleted, the store ends empty. -/
theorem reconcile_deletion_by_absence_witness :
    (reconcileBookings (fun r => r.name) 7 "u1"
        [{ id := "B1", user_id := "u1", name := "R-1"
         , start_time := ⟨"2024-01-15 10:00:00+00:00"⟩
         , end_time := ⟨"2024-01-15 12:00:00+00:00"⟩
         , studio := "Studio A", location := "Loc1", status := "Confirmed"
         , price := some 50, record_url := none, last_seen := 5 }]
        []).store = [] ∧
    (reconcileBookings (fun r => r.name) 7 "u1"
        [{ id := "B1", user_id := "u1", name := "R-1"
         , start_time := ⟨"2024-01-15 10:00:00+00:00"⟩
         , end_time := ⟨"2024-01-15 12:00:00+00:00"⟩
         , studio := "Studio A", location := "Loc1", status := "Confirmed"
         , price := some 50, record_url := none, last_seen := 5 }]
        []).deleted = 1 :=
  (reconcile_deletion_by_absence (fun r => r.name) 7 "u1"
    [{ id := "B1", user_id := "u1", name := "R-1"
     , start_time := ⟨"2024-01-15 10:00:00+00:00"⟩
     , end_time := ⟨"2024-01-15 12:00:00+00:00"⟩
     , studio := "Studio A", location := "Loc1", status := "Confirmed"
     , price := some 50, record_url := none, last_seen := 5 }]
    []).2.2 rfl

/-- The stale sweep either skips (jobs unchanged) or rewrites the table
by the stale-jobs map. -/
theorem sweep_jobs_cases (lc : Option Int) (now : Int)
    (jobs : List SyncJob) (tm : Int) :
    (check_and_mark_stale_jobs lc now jobs tm).jobs = jobs ∨
    (check_and_mark_stale_jobs lc now jobs tm).jobs =
      jobs.map (fun j =>
        if isStaleJob now tm j then markJobFailed now tm j else j) := by
  cases lc with
  | none => exact Or.inr rfl
  | some t =>
    by_cases h : now - t < staleCheckInterval
    · exact Or.inl (by simp [check_and_mark_stale_jobs, h])
    · exact Or.inr (by simp [check_and_mark_stale_jobs, h])

/-- The stale sweep never turns a non-active job active: a job that is
pending or running after the map was pending or running before. -/
theorem isActiveFor_sweep_step (u : String) (now tm : Int) (j : SyncJob)
    (h : isActiveFor u
      (if isStaleJob now tm j then markJobFailed now tm j else j) = true) :
    isActiveFor u j = true := by
  by_cases hs : isStaleJob now tm j
  · rw [if_pos hs] at h
    simp [isActiveFor, markJobFailed] at h
  · rwa [if_neg hs] at h

/-- The stale sweep preserves the absence of active jobs of an owner. -/
theorem sweep_keeps_inactive (u : String) (lc : Option Int) (now : Int)
    (jobs : List SyncJob) (tm : Int)
    (h : ∀ j ∈ jobs, isActiveFor u j = false) :
    ∀ j ∈ (check_and_mark_stale_jobs lc now jobs tm).jobs,
      isActiveFor u j = false := by
  intro j hj
  rcases sweep_jobs_cases lc now jobs tm with hc | hc
  · rw [hc] at hj
    exact h j hj
  · rw [hc] at hj
    obtain ⟨j0, hj0, hj0eq⟩ := List.mem_map.mp hj
    rcases hact : isActiveFor u j with _ | _
    · rfl
    · rw [← hj0eq] at hact
      exact absurd (isActiveFor_sweep_step u now tm j0 hact)
        (by simp [h j0 hj0])

/-- The stale sweep does not increase the number of active jobs of any
owner, and never changes the number of rows. -/
theorem sweep_countP_le (u : String) (lc : Option Int) (now : Int)
    (jobs : List SyncJob) (tm : Int) :
    (check_and_mark_stale_jobs lc now jobs tm).jobs.countP (isActiveFor u) ≤
      jobs.countP (isActiveFor u) ∧
    (check_and_mark_stale_jobs lc now jobs tm).jobs.length = jobs.length := by
  rcases sweep_jobs_cases lc now jobs tm with hc | hc <;> rw [hc]
  · exact ⟨le_refl _, rfl⟩
  · refine ⟨?_, by simp⟩
    rw [List.countP_map]
    exact List.countP_mono_left fun j hj h =>
      isActiveFor_sweep_step u now tm j h

/-- C3: duplicate prevention.  Starting from a jobs table holding no
pending or running job of the owner, a first call to sync_bookings
creates one pending job with the fresh id nid1, and a second call for
the same owner made while that job is still pending returns the very
same job id and inserts no new SyncJob row; moreover sync_bookings
preserves, for every owner, the invariant that at most one job is in
the pending or running status. -/
theorem sync_start_duplicate_prevention (lc : Option Int) (t1 t2 : Int)
    (jobs0 : List SyncJob) (uid : String) (nid1 nid2 : Nat)
    (h0 : ∀ j ∈ jobs0, isActiveFor uid j = false) :
    ∃ o1 o2,
      sync_bookings true lc t1 jobs0 uid nid1 = .ok o1 ∧
      sync_bookings true o1.lastCheck t2 o1.jobs uid nid2 = .ok o2 ∧
      o1.job_id = nid1 ∧
      o2.job_id = nid1 ∧
      o2.jobs.length = o1.jobs.length ∧
      (∀ u : String, jobs0.countP (isActiveFor u) ≤ 1 →
        o2.jobs.countP (isActiveFor u) ≤ 1) := by
  have hnj : isActiveFor uid (newPendingJob uid nid1 t1) = true := by
    simp [isActiveFor, newPendingJob]
  have hsw1 := sweep_keeps_inactive uid lc t1 jobs0 10 h0
  have hfind1 :
      (check_and_mark_stale_jobs lc t1 jobs0 10).jobs.find?
        (isActiveFor uid) = none :=
    List.find?_eq_none.mpr fun j hj => by simp [hsw1 j hj]
  have hcall1 : sync_bookings true lc t1 jobs0 uid nid1 =
      .ok { job_id := nid1
          , message := "Sync started successfully"
          , status := "pending"
          , jobs := (check_and_mark_stale_jobs lc t1 jobs0 10).jobs ++
              [newPendingJob uid nid1 t1]
          , lastCheck := (check_and_mark_stale_jobs lc t1 jobs0 10).lastCheck } := by
    rw [sync_bookings]
    simp [hfind1]
  set jobs1 := (check_and_mark_stale_jobs lc t1 jobs0 10).jobs ++
    [newPendingJob uid nid1 t1] with hjobs1
  set lc1 := (check_and_mark_stale_jobs lc t1 jobs0 10).lastCheck with hlc1
  -- the pending job created by call 1 survives the sweep of call 2
  have hnjstale : ∀ tm, isStaleJob t2 tm (newPendingJob uid nid1 t1) = false := by
    intro tm
    simp [isStaleJob, newPendingJob]
  have hfind2 :
      (check_and_mark_stale_jobs lc1 t2 jobs1 10).jobs.find?
        (isActiveFor uid) = some (newPendingJob uid nid1 t1) := by
    rcases sweep_jobs_cases lc1 t2 jobs1 10 with hc | hc <;> rw [hc]
    · rw [hjobs1, List.find?_append]
      rw [hfind1]
      simp [hnj]
    · rw [hjobs1, List.map_append, List.find?_append]
      have hleft :
          ((check_and_mark_stale_jobs lc t1 jobs0 10).jobs.map
            (fun j => if isStaleJob t2 10 j then markJobFailed t2 10 j
              else j)).find? (isActiveFor uid) = none := by
        refine List.find?_eq_none.mpr fun j hj => ?_
        obtain ⟨j0, hj0, hj0eq⟩ := List.mem_map.mp hj
        intro hact
        rw [← hj0eq] at hact
        exact absurd (isActiveFor_sweep_step uid t2 10 j0 hact)
          (by simp [hsw1 j0 hj0])
      rw [hleft]
      simp [hnjstale, hnj]
  have hcall2 : sync_bookings true lc1 t2 jobs1 uid nid2 =
      .ok { job_id := nid1
          , message := "A sync is already in progress. Please wait for it to complete."
          , status := "pending"
          , jobs := (check_and_mark_stale_jobs lc1 t2 jobs1 10).jobs
          , lastCheck := (check_and_mark_stale_jobs lc1 t2 jobs1 10).lastCheck } := by
    rw [sync_bookings]
    simp only [Bool.not_true, Bool.false_eq_true, if_false, hfind2]
    rfl
  refine ⟨_, _, hcall1, hcall2, rfl, rfl, ?_, ?_⟩
  · exact (sweep_countP_le uid lc1 t2 jobs1 10).2
  · intro u hu
    have hle := (sweep_countP_le u lc1 t2 jobs1 10).1
    refine le_trans hle ?_
    rw [hjobs1, List.countP_append]
    by_cases hus : u = uid
    · subst hus
      have : (check_and_mark_stale_jobs lc t1 jobs0 10).jobs.countP
          (isActiveFor u) = 0 :=
        List.countP_eq_zero.mpr fun j hj => by simp [hsw1 j hj]
      rw [this]
      simp [List.countP, List.countP.go, hnj]
    · have h1 : (check_and_mark_stale_jobs lc t1 jobs0 10).jobs.countP
          (isActiveFor u) ≤ 1 :=
        le_trans (sweep_countP_le u lc t1 jobs0 10).1 hu
      have h2 : List.countP (isActiveFor u) [newPendingJob uid nid1 t1] = 0 := by
        refine List.countP_eq_zero.mpr fun j hj => ?_
        simp only [List.mem_singleton] at hj
        subst hj
        simp [isActiveFor, newPendingJob]
        intro h
        exact absurd h.symm hus
      omega

/-- Concrete instance of sync_start_duplicate_prevention: from an empty
jobs table, the first call creates pending job 11 and the second call
(60+ seconds later, fresh-id 12 available) returns job 11 again with no
new row. -/
theorem sync_start_duplicate_prevention_witness :
    sync_bookings true none 100 ([] : List SyncJob) "u1" 11 =
      .ok { job_id := 11
          , message := "Sync started successfully"
          , status := "pending"
          , jobs := [newPendingJob "u1" 11 100]
          , lastCheck := some 100 } ∧
    sync_bookings true (some 100) 200 [newPendingJob "u1" 11 100] "u1" 12 =
      .ok { job_id := 11
          , message := "A sync is already in progress. Please wait for it to complete."
          , status := "pending"
          , jobs := [newPendingJob "u1" 11 100]
          , lastCheck := some 200 } := by
  obtain ⟨o1, o2, h1, h2, hid1, hid2, hlen, hinv⟩ :=
    sync_start_duplicate_prevention none 100 200 [] "u1" 11 12
      (fun j hj => absurd hj (List.not_mem_nil j))
  have ho1 : o1 =
      { job_id := 11
      , message := "Sync started successfully"
      , status := "pending"
      , jobs := [newPendingJob "u1" 11 100]
      , lastCheck := some 100 } :=
    Except.ok.inj (h1.symm.trans rfl)
  constructor
  · rw [h1, ho1]
  · rw [ho1] at h2
    have ho2 : o2 =
        { job_id := 11
        , message := "A sync is already in progress. Please wait for it to complete."
        , status := "pending"
        , jobs := [newPendingJob "u1" 11 100]
        , lastCheck := some 200 } :=
      Except.ok.inj (h2.symm.trans rfl)
    calc sync_bookings true (some 100) 200 [newPendingJob "u1" 11 100] "u1" 12
        = .ok o2 := h2
      _ = _ := by rw [ho2]

theorem opOf_key {H : RelevantFields → String} {now : Int}
    {rows : List Booking} {d : BookingData} {op : UpdateOp}
    (h : opOf H now rows d = some op) : op.key = d.id := by
  rw [opOf] at h
  rcases hc : classifyRecord H rows d with _ | b
  · rw [hc] at h
    cases h
  · rw [hc] at h
    cases b
    · cases h
      rfl
    · cases h
      rfl

theorem applyOps_single (ops1 ops2 : List UpdateOp) (op : UpdateOp)
    (b : Booking) (h1 : ∀ o ∈ ops1, o.key ≠ b.id)
    (h2 : ∀ o ∈ ops2, o.key ≠ b.id) :
    applyOps (ops1 ++ op :: ops2) b = applyOp b op := by
  rw [applyOps, List.foldl_append, List.foldl_cons]
  have e1 : List.foldl applyOp b ops1 = b := applyOps_of_keys_ne ops1 b h1
  rw [e1]
  exact applyOps_of_keys_ne ops2 (applyOp b op)
    (fun o ho => by rw [applyOp_id]; exact h2 o ho)

theorem ops_split {H : RelevantFields → String} {now : Int}
    {rows : List Booking} {data : List BookingData} {d : BookingData}
    {op : UpdateOp} (hd : (data.map BookingData.id).Nodup)
    (hmem : d ∈ data) (hop : opOf H now rows d = some op) :
    ∃ l1 l2, data.filterMap (opOf H now rows) = l1 ++ op :: l2 ∧
      (∀ o ∈ l1, o.key ≠ d.id) ∧ (∀ o ∈ l2, o.key ≠ d.id) := by
  obtain ⟨s, t, hst⟩ := List.append_of_mem hmem
  subst hst
  rw [List.map_append, List.map_cons, List.nodup_append] at hd
  obtain ⟨hs, hct, hdisj⟩ := hd
  have hsne : ∀ d2 ∈ s, d2.id ≠ d.id := by
    intro d2 hd2 h
    exact hdisj (List.mem_map_of_mem BookingData.id hd2) (by simp [h])
  have htne : ∀ d2 ∈ t, d2.id ≠ d.id := by
    intro d2 hd2 h
    rw [List.nodup_cons] at hct
    exact hct.1 (h ▸ List.mem_map_of_mem BookingData.id hd2)
  refine ⟨s.filterMap (opOf H now rows), t.filterMap (opOf H now rows),
    ?_, ?_, ?_⟩
  · rw [List.filterMap_append, List.filterMap_cons_some hop]
  · intro o ho
    obtain ⟨d2, hd2, hopd2⟩ := List.mem_filterMap.mp ho
    rw [opOf_key hopd2]
    exact hsne d2 hd2
  · intro o ho
    obtain ⟨d2, hd2, hopd2⟩ := List.mem_filterMap.mp ho
    rw [opOf_key hopd2]
    exact htne d2 hd2

theorem applyOps_run {H : RelevantFields → String} {now : Int}
    {rows : List Booking} {data : List BookingData} {d : BookingData}
    {op : UpdateOp} {b : Booking} (hd : (data.map BookingData.id).Nodup)
    (hmem : d ∈ data) (hop : opOf H now rows d = some op)
    (hb : b.id = d.id) :
    applyOps (data.filterMap (opOf H now rows)) b = applyOp b op := by
  obtain ⟨l1, l2, heq, h1, h2⟩ := ops_split hd hmem hop
  rw [heq]
  exact applyOps_single l1 l2 op b (fun o ho => by rw [hb]; exact h1 o ho)
    (fun o ho => by rw [hb]; exact h2 o ho)

theorem applyOps_not_found {H : RelevantFields → String} {now : Int}
    {rows : List Booking} {data : List BookingData} {b : Booking}
    (hnone : findExisting rows b.id = none) :
    applyOps (data.filterMap (opOf H now rows)) b = b := by
  apply applyOps_of_keys_ne
  intro o ho hkb
  obtain ⟨d, hdmem, hopd⟩ := List.mem_filterMap.mp ho
  have hk := opOf_key hopd
  have hsome : classifyRecord H rows d ≠ none := by
    intro hc
    rw [opOf, hc] at hopd
    cases hopd
  have hdid : d.id = b.id := by rw [← hk, hkb]
  rw [classifyRecord, hdid, hnone] at hsome
  exact hsome rfl

theorem touchBooking_touchBooking (b : Booking) (t : Int) :
    touchBooking (touchBooking b t) t = touchBooking b t := rfl

theorem applyOps_all_touch : ∀ (ops : List UpdateOp) (t : Int) (b : Booking),
    (∀ o ∈ ops, ∃ k, o = UpdateOp.touchOnly k t) →
    (∃ o ∈ ops, o.key = b.id) →
    applyOps ops b = touchBooking b t := by
  intro ops
  induction ops with
  | nil =>
    intro t b _ hmatch
    obtain ⟨o, ho, _⟩ := hmatch
    exact absurd ho (List.not_mem_nil o)
  | cons op rest ih =>
    intro t b hall hmatch
    obtain ⟨k, hk⟩ := hall op (by simp)
    subst hk
    rw [applyOps, List.foldl_cons]
    by_cases hkb : b.id = k
    · have e : applyOp b (UpdateOp.touchOnly k t) = touchBooking b t := by
        simp [applyOp, hkb]
      rw [e]
      by_cases hrest : ∀ o ∈ rest, o.key ≠ b.id
      · exact applyOps_of_keys_ne rest (touchBooking b t)
          (fun o ho => hrest o ho)
      · push_neg at hrest
        obtain ⟨o, ho, hok⟩ := hrest
        have hres := ih t (touchBooking b t)
          (fun o2 ho2 => hall o2 (by simp [ho2]))
          ⟨o, ho, hok⟩
        rw [show applyOps rest (touchBooking b t) =
          List.foldl applyOp (touchBooking b t) rest from rfl] at hres
        rw [hres]
        exact touchBooking_touchBooking b t
    · have e : applyOp b (UpdateOp.touchOnly k t) = b := by
        simp [applyOp, hkb]
      rw [e]
      obtain ⟨o, ho, hok⟩ := hmatch
      rcases List.mem_cons.mp ho with hhead | htail
      · exact absurd (by rw [← hok, hhead]; rfl) (Ne.symm hkb)
      · exact ih t b (fun o2 ho2 => hall o2 (by simp [ho2])) ⟨o, htail, hok⟩

theorem classifyRecord_eq_none_iff (H : RelevantFields → String)
    (rows : List Booking) (d : BookingData) :
    classifyRecord H rows d = none ↔ findExisting rows d.id = none := by
  rw [classifyRecord]
  rcases h : findExisting rows d.id with _ | b <;> simp

theorem map_id_applyOps (ops : List UpdateOp) (l : List Booking) :
    (l.map (applyOps ops)).map Booking.id = l.map Booking.id := by
  rw [List.map_map]
  exact List.map_congr_left (fun b _ => applyOps_id ops b)

theorem map_id_mkBooking (uid : String) (now : Int) (l : List BookingData) :
    (l.map (mkBooking uid now)).map Booking.id = l.map BookingData.id := by
  rw [List.map_map]
  exact List.map_congr_left (fun d _ => rfl)

theorem store1_nodup (H : RelevantFields → String) (now : Int)
    (uid : String) (rows : List Booking) (data : List BookingData)
    (hr : (rows.map Booking.id).Nodup)
    (hd : (data.map BookingData.id).Nodup) :
    ((reconcileBookings H now uid rows data).store.map Booking.id).Nodup := by
  rw [reconcileBookings]
  simp only
  rw [map_id_applyOps, List.map_append]
  refine List.Nodup.append ?_ ?_ ?_
  · exact hr.sublist ((List.filter_sublist rows).map Booking.id)
  · rw [map_id_mkBooking]
    exact hd.sublist ((List.filter_sublist data).map BookingData.id)
  · intro i hik hii
    obtain ⟨b, hbmem, hbid⟩ := List.mem_map.mp hik
    obtain ⟨b2, hb2mem, hb2id⟩ := List.mem_map.mp hii
    obtain ⟨d, hdmem, hdeq⟩ := List.mem_map.mp hb2mem
    have hdn : (classifyRecord H rows d).isNone = true :=
      (List.mem_filter.mp hdmem).2
    have hfe : findExisting rows d.id = none :=
      (classifyRecord_eq_none_iff H rows d).mp (Option.isNone_iff_eq_none.mp hdn)
    have hbrows : b ∈ rows := (List.mem_filter.mp hbmem).1
    have hbne := (findExisting_eq_none_iff rows d.id).mp hfe b hbrows
    apply hbne
    rw [hbid, ← hb2id, ← hdeq]
    rfl

theorem store1_forall (H : RelevantFields → String) (now : Int)
    (uid : String) (rows : List Booking) (data : List BookingData)
    (hr : (rows.map Booking.id).Nodup)
    (hd : (data.map BookingData.id).Nodup) :
    ∀ d ∈ data, ∃ b2 ∈ (reconcileBookings H now uid rows data).store,
      b2.id = d.id ∧ Booking.create_hash H b2 = create_booking_hash H d := by
  intro d hdmem
  rw [reconcileBookings]
  simp only [List.mem_map, List.mem_append]
  rcases hc : classifyRecord H rows d with _ | bne
  · have hfe : findExisting rows d.id = none :=
      (classifyRecord_eq_none_iff H rows d).mp hc
    refine ⟨_, ⟨mkBooking uid now d,
      Or.inr ⟨d, List.mem_filter.mpr ⟨hdmem, by rw [hc]; rfl⟩, rfl⟩, rfl⟩, ?_⟩
    have hnm : applyOps (data.filterMap (opOf H now rows))
        (mkBooking uid now d) = mkBooking uid now d :=
      applyOps_not_found (by
        show findExisting rows (mkBooking uid now d).id = none
        exact hfe)
    rw [hnm]
    refine ⟨rfl, ?_⟩
    rw [Booking.create_hash, create_booking_hash, relevantOfBooking_mkBooking]
  · have hex : ∃ b0, findExisting rows d.id = some b0 := by
      rcases hfe : findExisting rows d.id with _ | b0
      · rw [classifyRecord, hfe] at hc
        cases hc
      · exact ⟨b0, rfl⟩
    obtain ⟨b0, hfe⟩ := hex
    obtain ⟨hb0mem, hb0id⟩ := findExisting_mem hfe
    have hbne : some (Booking.create_hash H b0 != create_booking_hash H d) =
        some bne := by
      rw [← hc, classifyRecord, hfe]
    have hkept : b0 ∈ rows.filter (fun b => data.any fun d2 => d2.id == b.id) :=
      List.mem_filter.mpr ⟨hb0mem, by
        rw [List.any_eq_true]
        exact ⟨d, hdmem, beq_iff_eq.mpr hb0id.symm⟩⟩
    cases bne with
    | true =>
      have hop : opOf H now rows d = some (UpdateOp.full d.id d now) := by
        rw [opOf, hc]
      have happ : applyOps (data.filterMap (opOf H now rows)) b0 =
          applyOp b0 (UpdateOp.full d.id d now) :=
        applyOps_run hd hdmem hop hb0id
      have hov : applyOp b0 (UpdateOp.full d.id d now) =
          overwriteBooking b0 d now := by
        simp [applyOp, hb0id]
      refine ⟨_, ⟨b0, Or.inl hkept, rfl⟩, ?_⟩
      rw [happ, hov]
      refine ⟨hb0id, ?_⟩
      rw [Booking.create_hash, create_booking_hash, relevantOfBooking_overwrite]
    | false =>
      have heqhash : Booking.create_hash H b0 = create_booking_hash H d := by
        have := Option.some.inj hbne
        rwa [bne_eq_false_iff_eq] at this
      have hop : opOf H now rows d = some (UpdateOp.touchOnly d.id now) := by
        rw [opOf, hc]
      have happ : applyOps (data.filterMap (opOf H now rows)) b0 =
          applyOp b0 (UpdateOp.touchOnly d.id now) :=
        applyOps_run hd hdmem hop hb0id
      have htc : applyOp b0 (UpdateOp.touchOnly d.id now) =
          touchBooking b0 now := by
        simp [applyOp, hb0id]
      refine ⟨_, ⟨b0, Or.inl hkept, rfl⟩, ?_⟩
      rw [happ, htc]
      refine ⟨hb0id, ?_⟩
      rw [Booking.create_hash, relevantOfBooking_touch]
      exact heqhash

theorem store1_mem (H : RelevantFields → String) (now : Int)
    (uid : String) (rows : List Booking) (data : List BookingData)
    (hr : (rows.map Booking.id).Nodup)
    (hd : (data.map BookingData.id).Nodup) :
    ∀ b2 ∈ (reconcileBookings H now uid rows data).store,
      ∃ d ∈ data, b2.id = d.id ∧
        Booking.create_hash H b2 = create_booking_hash H d := by
  intro b2 hb2
  rw [reconcileBookings] at hb2
  simp only [List.mem_map, List.mem_append] at hb2
  obtain ⟨b0, hb0, hb0eq⟩ := hb2
  rcases hb0 with hkept | ⟨d, hdf, hdeq⟩
  · obtain ⟨hb0rows, hb0keep⟩ := List.mem_filter.mp hkept
    rw [List.any_eq_true] at hb0keep
    obtain ⟨d, hdmem, hdid⟩ := hb0keep
    rw [beq_iff_eq] at hdid
    have hfe : findExisting rows d.id = some b0 := by
      rw [hdid]
      exact findExisting_of_nodup hr hb0rows
    have hc : classifyRecord H rows d =
        some (Booking.create_hash H b0 != create_booking_hash H d) := by
      rw [classifyRecord, hfe]
    rcases hbv : Booking.create_hash H b0 != create_booking_hash H d with _ | _
    · have hop : opOf H now rows d = some (UpdateOp.touchOnly d.id now) := by
        rw [opOf, hc, hbv]
      have happ : applyOps (data.filterMap (opOf H now rows)) b0 =
          applyOp b0 (UpdateOp.touchOnly d.id now) :=
        applyOps_run hd hdmem hop hdid.symm
      have htc : applyOp b0 (UpdateOp.touchOnly d.id now) =
          touchBooking b0 now := by
        simp [applyOp, hdid.symm]
      refine ⟨d, hdmem, ?_, ?_⟩
      · rw [← hb0eq, happ, htc]
        exact hdid.symm
      · rw [← hb0eq, happ, htc, Booking.create_hash, relevantOfBooking_touch]
        rw [bne_eq_false_iff_eq] at hbv
        exact hbv
    · have hop : opOf H now rows d = some (UpdateOp.full d.id d now) := by
        rw [opOf, hc, hbv]
      have happ : applyOps (data.filterMap (opOf H now rows)) b0 =
          applyOp b0 (UpdateOp.full d.id d now) :=
        applyOps_run hd hdmem hop hdid.symm
      have hov : applyOp b0 (UpdateOp.full d.id d now) =
          overwriteBooking b0 d now := by
        simp [applyOp, hdid.symm]
      refine ⟨d, hdmem, ?_, ?_⟩
      · rw [← hb0eq, happ, hov]
        exact hdid.symm
      · rw [← hb0eq, happ, hov, Booking.create_hash, create_booking_hash,
          relevantOfBooking_overwrite]
  · obtain ⟨hdmem, hdn⟩ := List.mem_filter.mp hdf
    have hfe : findExisting rows d.id = none :=
      (classifyRecord_eq_none_iff H rows d).mp (Option.isNone_iff_eq_none.mp hdn)
    have hnm : applyOps (data.filterMap (opOf H now rows))
        (mkBooking uid now d) = mkBooking uid now d :=
      applyOps_not_found (by
        show findExisting rows (mkBooking uid now d).id = none
        exact hfe)
    refine ⟨d, hdmem, ?_, ?_⟩
    · rw [← hb0eq, ← hdeq, hnm]
      rfl
    · rw [← hb0eq, ← hdeq, hnm, Booking.create_hash, create_booking_hash,
        relevantOfBooking_mkBooking]

/-- C1: reconciliation is idempotent.  Running the diff-and-apply step
of scrape_user_bookings twice with the identical snapshot (ids unique
in the snapshot, per the scraper dedupe, and unique among the stored
rows, per the primary key) yields zero creates, zero updates and zero
deletes on the second run with every snapshot record counted
unchanged; the second store is the first store with only last_seen
refreshed on every (unchanged) row; and every record of the snapshot
has its content hash equal to the hash recomputed from the row stored
by the first run. -/
theorem reconcile_idempotent (H : RelevantFields → String) (t1 t2 : Int)
    (uid : String) (rows : List Booking) (data : List BookingData)
    (hr : (rows.map Booking.id).Nodup)
    (hd : (data.map BookingData.id).Nodup) :
    (reconcileBookings H t2 uid
      (reconcileBookings H t1 uid rows data).store data).created = 0 ∧
    (reconcileBookings H t2 uid
      (reconcileBookings H t1 uid rows data).store data).updated = 0 ∧
    (reconcileBookings H t2 uid
      (reconcileBookings H t1 uid rows data).store data).deleted = 0 ∧
    (reconcileBookings H t2 uid
      (reconcileBookings H t1 uid rows data).store data).unchanged =
        data.length ∧
    (reconcileBookings H t2 uid
      (reconcileBookings H t1 uid rows data).store data).store =
        (reconcileBookings H t1 uid rows data).store.map
          (fun b => touchBooking b t2) ∧
    (∀ d ∈ data, ∃ b ∈ (reconcileBookings H t1 uid rows data).store,
      b.id = d.id ∧ Booking.create_hash H b = create_booking_hash H d) := by
  set S := (reconcileBookings H t1 uid rows data).store with hS
  have hN : (S.map Booking.id).Nodup := store1_nodup H t1 uid rows data hr hd
  have hA := store1_mem H t1 uid rows data hr hd
  have hB := store1_forall H t1 uid rows data hr hd
  have hclass2 : ∀ d ∈ data, classifyRecord H S d = some false := by
    intro d hdm
    obtain ⟨b, hbS, hbid, hbh⟩ := hB d hdm
    have hfe : findExisting S d.id = some b := by
      rw [← hbid]
      exact findExisting_of_nodup hN hbS
    rw [classifyRecord, hfe]
    show some (Booking.create_hash H b != create_booking_hash H d) = some false
    rw [hbh, bne_self_eq_false]
  have hkeep2 : ∀ b ∈ S, (data.any fun d2 => d2.id == b.id) = true := by
    intro b hbS
    obtain ⟨d, hdm, hbid, _⟩ := hA b hbS
    rw [List.any_eq_true]
    exact ⟨d, hdm, beq_iff_eq.mpr hbid.symm⟩
  refine ⟨?_, ?_, ?_, ?_, ?_, hB⟩
  · rw [reconcileBookings]
    simp only
    exact List.countP_eq_zero.mpr fun d hdm => by
      rw [hclass2 d hdm]
      simp
  · rw [reconcileBookings]
    simp only
    exact List.countP_eq_zero.mpr fun d hdm => by
      rw [hclass2 d hdm]
      simp
  · rw [reconcileBookings]
    simp only
    have hnil : S.filter (fun b => !(data.any fun d2 => d2.id == b.id)) = [] :=
      List.filter_eq_nil_iff.mpr fun b hb => by simp [hkeep2 b hb]
    rw [hnil]
    rfl
  · rw [reconcileBookings]
    simp only
    exact List.countP_eq_length.mpr fun d hdm => by
      rw [hclass2 d hdm]
      rfl
  · rw [reconcileBookings]
    simp only
    have hfilter : S.filter (fun b => data.any fun d2 => d2.id == b.id) = S :=
      List.filter_eq_self.mpr fun b hb => hkeep2 b hb
    have hins : data.filter (fun d => (classifyRecord H S d).isNone) = [] :=
      List.filter_eq_nil_iff.mpr fun d hdm => by
        rw [hclass2 d hdm]
        simp
    rw [hfilter, hins]
    simp only [List.map_nil, List.append_nil]
    refine List.map_congr_left fun b hb => ?_
    refine applyOps_all_touch _ t2 b ?_ ?_
    · intro o ho
      obtain ⟨d, hdm, hop⟩ := List.mem_filterMap.mp ho
      rw [opOf, hclass2 d hdm] at hop
      cases hop
      exact ⟨d.id, rfl⟩
    · obtain ⟨d, hdm, hbid, _⟩ := hA b hb
      refine ⟨UpdateOp.touchOnly d.id t2,
        List.mem_filterMap.mpr ⟨d, hdm, by rw [opOf, hclass2 d hdm]⟩, ?_⟩
      exact hbid.symm

/-- Concrete instance of reconcile_idempotent: starting from an empty
store, reconciling a one-record snapshot twice gives zero creates,
updates and deletes and one unchanged on the second run. -/
theorem reconcile_idempotent_witness :
    (reconcileBookings (fun r => r.name ++ r.status) 2 "u1"
      (reconcileBookings (fun r => r.name ++ r.status) 1 "u1" []
        [{ id := "A1", name := "R-1"
         , start_time := ⟨"2024-01-15 10:00:00+00:00"⟩
         , end_time := ⟨"2024-01-15 12:00:00+00:00"⟩
         , studio := "Studio A", location := "Loc1", status := "Confirmed"
         , price := 50, record_url := "u" }]).store
      [{ id := "A1", name := "R-1"
       , start_time := ⟨"2024-01-15 10:00:00+00:00"⟩
       , end_time := ⟨"2024-01-15 12:00:00+00:00"⟩
       , studio := "Studio A", location := "Loc1", status := "Confirmed"
       , price := 50, record_url := "u" }]).created = 0 ∧
    (reconcileBookings (fun r => r.name ++ r.status) 2 "u1"
      (reconcileBookings (fun r => r.name ++ r.status) 1 "u1" []
        [{ id := "A1", name := "R-1"
         , start_time := ⟨"2024-01-15 10:00:00+00:00"⟩
         , end_time := ⟨"2024-01-15 12:00:00+00:00"⟩
         , studio := "Studio A", location := "Loc1", status := "Confirmed"
         , price := 50, record_url := "u" }]).store
      [{ id := "A1", name := "R-1"
       , start_time := ⟨"2024-01-15 10:00:00+00:00"⟩
       , end_time := ⟨"2024-01-15 12:00:00+00:00"⟩
       , studio := "Studio A", location := "Loc1", status := "Confirmed"
       , price := 50, record_url := "u" }]).updated = 0 ∧
    (reconcileBookings (fun r => r.name ++ r.status) 2 "u1"
      (reconcileBookings (fun r => r.name ++ r.status) 1 "u1" []
        [{ id := "A1", name := "R-1"
         , start_time := ⟨"2024-01-15 10:00:00+00:00"⟩
         , end_time := ⟨"2024-01-15 12:00:00+00:00"⟩
         , studio := "Studio A", location := "Loc1", status := "Confirmed"
         , price := 50, record_url := "u" }]).store
      [{ id := "A1", name := "R-1"
       , start_time := ⟨"2024-01-15 10:00:00+00:00"⟩
       , end_time := ⟨"2024-01-15 12:00:00+00:00"⟩
       , studio := "Studio A", location := "Loc1", status := "Confirmed"
       , price := 50, record_url := "u" }]).deleted = 0 ∧
    (reconcileBookings (fun r => r.name ++ r.status) 2 "u1"
      (reconcileBookings (fun r => r.name ++ r.status) 1 "u1" []
        [{ id := "A1", name := "R-1"
         , start_time := ⟨"2024-01-15 10:00:00+00:00"⟩
         , end_time := ⟨"2024-01-15 12:00:00+00:00"⟩
         , studio := "Studio A", location := "Loc1", status := "Confirmed"
         , price := 50, record_url := "u" }]).store
      [{ id := "A1", name := "R-1"
       , start_time := ⟨"2024-01-15 10:00:00+00:00"⟩
       , end_time := ⟨"2024-01-15 12:00:00+00:00"⟩
       , studio := "Studio A", location := "Loc1", status := "Confirmed"
       , price := 50, record_url := "u" }]).unchanged = 1 := by
  have T := reconcile_idempotent (fun r => r.name ++ r.status) 1 2 "u1" []
    [{ id := "A1", name := "R-1"
     , start_time := ⟨"2024-01-15 10:00:00+00:00"⟩
     , end_time := ⟨"2024-01-15 12:00:00+00:00"⟩
     , studio := "Studio A", location := "Loc1", status := "Confirmed"
     , price := 50, record_url := "u" }]
    (by simp) (by simp)
  exact ⟨T.1, T.2.1, T.2.2.1, T.2.2.2.1⟩

theorem processRow_counters (acc : ScrollState) (row : ScrapedRow) :
    (processRow acc row).scrollCount = acc.scrollCount ∧
    (processRow acc row).lastRowCount = acc.lastRowCount ∧
    (processRow acc row).noNewCount = acc.noNewCount := by
  rw [processRow]
  split
  · exact ⟨rfl, rfl, rfl⟩
  · split
    · exact ⟨rfl, rfl, rfl⟩
    · exact ⟨rfl, rfl, rfl⟩

theorem processRows_counters (rows : List ScrapedRow) (st : ScrollState) :
    (processRows rows st).scrollCount = st.scrollCount ∧
    (processRows rows st).lastRowCount = st.lastRowCount ∧
    (processRows rows st).noNewCount = st.noNewCount := by
  induction rows generalizing st with
  | nil => exact ⟨rfl, rfl, rfl⟩
  | cons r rest ih =>
    rw [processRows, List.foldl_cons]
    have h1 := ih (processRow st r)
    have h2 := processRow_counters st r
    rw [processRows] at h1
    refine ⟨h1.1.trans h2.1, h1.2.1.trans h2.2.1, h1.2.2.trans h2.2.2⟩

theorem scrapeRentalsLoop_scrollCount_le (dom : Nat → List ScrapedRow)
    (maxRentals : Option Nat) :
    ∀ (fuel : Nat) (st : ScrollState),
      (scrapeRentalsLoop dom maxRentals fuel st).scrollCount ≤
        st.scrollCount + fuel := by
  intro fuel
  induction fuel with
  | zero =>
    intro st
    rw [scrapeRentalsLoop]
    omega
  | succ n ih =>
    intro st
    rw [scrapeRentalsLoop]
    by_cases h1 : (dom st.scrollCount).length = st.lastRowCount ∧
        st.noNewCount + 1 ≥ maxNoNewContentAttempts
    · rw [if_pos h1]
      have := (processRows_counters (dom st.scrollCount) st).1
      simp only
      omega
    · rw [if_neg h1]
      simp only
      by_cases h2 : (dom st.scrollCount).length = st.lastRowCount
      · rw [if_pos h2]
        have hp := (processRows_counters (dom st.scrollCount) st).1
        split
        · simp only
          omega
        · have := ih { processRows (dom st.scrollCount) st with
            noNewCount := st.noNewCount + 1
          , scrollCount := st.scrollCount + 1 }
          simp only at this ⊢
          omega
      · rw [if_neg h2]
        have hp := (processRows_counters (dom st.scrollCount) st).1
        split
        · simp only
          omega
        · have := ih { processRows (dom st.scrollCount) st with
            noNewCount := 0
          , lastRowCount := (dom st.scrollCount).length
          , scrollCount := st.scrollCount + 1 }
          simp only at this ⊢
          omega

theorem scrapeRentalsLoop_stop (dom : Nat → List ScrapedRow)
    (maxRentals : Option Nat) :
    ∀ (fuel : Nat) (st : ScrollState),
      maxNoNewContentAttempts ≤
        (scrapeRentalsLoop dom maxRentals fuel st).noNewCount ∨
      (scrapeRentalsLoop dom maxRentals fuel st).scrollCount =
        st.scrollCount + fuel ∨
      hitsLimit maxRentals
        (scrapeRentalsLoop dom maxRentals fuel st).rentals.length = true := by
  intro fuel
  induction fuel with
  | zero =>
    intro st
    rw [scrapeRentalsLoop]
    right
    left
    omega
  | succ n ih =>
    intro st
    rw [scrapeRentalsLoop]
    by_cases h1 : (dom st.scrollCount).length = st.lastRowCount ∧
        st.noNewCount + 1 ≥ maxNoNewContentAttempts
    · rw [if_pos h1]
      left
      simp only
      omega
    · rw [if_neg h1]
      simp only
      by_cases h2 : (dom st.scrollCount).length = st.lastRowCount
      · rw [if_pos h2]
        split
        · right
          right
          assumption
        · rcases ih { processRows (dom st.scrollCount) st with
              noNewCount := st.noNewCount + 1
            , scrollCount := st.scrollCount + 1 } with h | h | h
          · exact Or.inl h
          · refine Or.inr (Or.inl ?_)
            simp only at h
            omega
          · exact Or.inr (Or.inr h)
      · rw [if_neg h2]
        split
        · right
          right
          assumption
        · rcases ih { processRows (dom st.scrollCount) st with
              noNewCount := 0
            , lastRowCount := (dom st.scrollCount).length
            , scrollCount := st.scrollCount + 1 } with h | h | h
          · exact Or.inl h
          · refine Or.inr (Or.inl ?_)
            simp only at h
            omega
          · exact Or.inr (Or.inr h)

theorem truncateRentals_le (m : Nat) (l : List String) (hm : 0 < m) :
    (truncateRentals (some m) l).length ≤ m := by
  rw [truncateRentals]
  split
  · simp [List.length_take]
  · next h =>
    push_neg at h
    have := h (by omega)
    omega

/-- C6 (amended: the rental-count cap is honoured for every positive
limit; a limit of zero is falsy in Python and disables the cap, see the
counterexample).  The harvest loop of scrape_rentals always terminates,
and when it returns: it has run at most max_scroll_attempts = 50
passes, and it stopped either because MAX_NO_NEW_CONTENT_ATTEMPTS = 4
consecutive passes left the DOM row count unchanged, or because the
pass ceiling of 50 was reached, or earlier because the rental limit was
hit; when a positive max_rentals is given the returned snapshot has at
most max_rentals records. -/
theorem scrape_rentals_terminates (dom : Nat → List ScrapedRow)
    (maxRentals : Option Nat) :
    (scrape_rentals dom maxRentals).2.scrollCount ≤ maxScrollAttempts ∧
    (maxNoNewContentAttempts ≤ (scrape_rentals dom maxRentals).2.noNewCount ∨
      (scrape_rentals dom maxRentals).2.scrollCount = maxScrollAttempts ∨
      hitsLimit maxRentals
        (scrape_rentals dom maxRentals).2.rentals.length = true) ∧
    (∀ m, maxRentals = some m → 0 < m →
      (scrape_rentals dom maxRentals).1.length ≤ m) := by
  refine ⟨?_, ?_, ?_⟩
  · have := scrapeRentalsLoop_scrollCount_le dom maxRentals maxScrollAttempts
      { processed := [], rentals := [], scrollCount := 0
      , lastRowCount := 0, noNewCount := 0 }
    rw [scrape_rentals]
    simp only at this ⊢
    omega
  · have := scrapeRentalsLoop_stop dom maxRentals maxScrollAttempts
      { processed := [], rentals := [], scrollCount := 0
      , lastRowCount := 0, noNewCount := 0 }
    rw [scrape_rentals]
    simp only at this ⊢
    exact this
  · intro m hm hpos
    subst hm
    rw [scrape_rentals]
    simp only
    exact truncateRentals_le m _ hpos

/-- Concrete instance of scrape_rentals_terminates: a static one-row
page with limit 1 — the loop stops within the pass ceiling and returns
exactly one rental, within the limit. -/
theorem scrape_rentals_terminates_witness :
    (scrape_rentals (fun _ => [{ id := "A", cellCount := 8, hasLink := true, parseOk := true }]) (some 1)).2.scrollCount ≤
        maxScrollAttempts ∧
    (scrape_rentals (fun _ => [{ id := "A", cellCount := 8, hasLink := true, parseOk := true }]) (some 1)).1.length ≤ 1 :=
  ⟨(scrape_rentals_terminates (fun _ => [{ id := "A", cellCount := 8, hasLink := true, parseOk := true }]) (some 1)).1,
   (scrape_rentals_terminates (fun _ => [{ id := "A", cellCount := 8, hasLink := true, parseOk := true }]) (some 1)).2.2 1 rfl (by decide)⟩

/-- Counterexample to C6 as stated: with max_rentals given as 0 the
Python truthiness test "if max_rentals and ..." is false, so neither
the early stop nor the final truncation applies, and the returned list
has length 1 > 0 = max_rentals on a one-row page. -/
theorem scrape_rentals_zero_limit_counterexample :
    (scrape_rentals (fun _ => [{ id := "A", cellCount := 8, hasLink := true, parseOk := true }]) (some 0)).1.length = 1 ∧
    ¬((scrape_rentals (fun _ => [{ id := "A", cellCount := 8, hasLink := true, parseOk := true }]) (some 0)).1.length ≤ 0) := by
  refine ⟨?_, ?_⟩ <;> decide
